import Mathlib

/-!
Shallow embedding of `src/object_store/src/range.rs` (the `ByteRange` byte-range
expression) and proofs about its operations.

Machine-integer conventions (64-bit target): `usize` values are natural numbers
that fit in 64 bits, `u64` likewise, `i64` values are integers in
`[-2^63, 2^63 - 1]`.  Rust's unchecked `+`/`-` on `usize` (which panic on
overflow in the source) are modelled as `Option`-returning operations where
`none` stands for the arithmetic-overflow panic; Rust's `checked_sub` and
`try_from` are modelled by their exact checked semantics.
-/

namespace RangeSpec

def USIZE_MAX : Nat := 2 ^ 64 - 1

def U64_MAX : Nat := 2 ^ 64 - 1

def I64_MAX : Nat := 2 ^ 63 - 1

/-- `pub const BYTES: &str = "bytes";` -/
def BYTES : String := "bytes"

/-- The `ByteRange` enum from the source: an explicit `Range { start, end }`
(0-based, `end` inclusive when present) or a `Suffix(count)` of trailing bytes. -/
inductive ByteRange where
  | Range (start : Nat) (end_ : Option Nat)
  | Suffix (count : Nat)
deriving DecidableEq, Repr

/-- `usize` subtraction `a - b` as the source writes it (unchecked): panics
(`none`) on underflow. -/
def usize_sub (a b : Nat) : Option Nat :=
  if b ≤ a then some (a - b) else none

/-- `usize` addition `a + b` as the source writes it (unchecked): panics
(`none`) on overflow past `usize::MAX`. -/
def usize_add (a b : Nat) : Option Nat :=
  if a + b ≤ USIZE_MAX then some (a + b) else none

/-- Rust `usize::checked_sub`: `some (a - b)` when `b ≤ a`, else `none`. -/
def checked_sub (a b : Nat) : Option Nat :=
  if b ≤ a then some (a - b) else none

/-- `ByteRange::expected_len(&self, total_length: Option<usize>) -> Option<usize>`.

Source:
```
ByteRange::Range { start, end } => {
    let e = end.or(total_length)?;
    e.checked_sub(*start)
}
ByteRange::Suffix(n) => Some(*n),
```
-/
def ByteRange.expected_len (r : ByteRange) (total_length : Option Nat) : Option Nat :=
  match r with
  | ByteRange.Range start end_ =>
      match end_.or total_length with
      | none => none
      | some e => checked_sub e start
  | ByteRange.Suffix n => some n

/-- The `Display` impl: writes `"{BYTES}="`, then for `Range` writes
`"{start}-"` followed by the end offset when present, and for `Suffix`
writes `"-{len}"`. -/
def ByteRange.display (r : ByteRange) : String :=
  BYTES ++ "=" ++
    match r with
    | ByteRange.Range start end_ =>
        toString start ++ "-" ++
          (match end_ with
           | some e => toString e
           | none => "")
    | ByteRange.Suffix len => "-" ++ toString len

/-- `std::ops::Bound<usize>`, the bound forms a `RangeBounds<usize>` value
reports for each side. -/
inductive Bound where
  | Included (i : Nat)
  | Excluded (i : Nat)
  | Unbounded
deriving DecidableEq, Repr

/-- `impl<T: RangeBounds<usize>> From<T> for ByteRange`.

Source (unchecked arithmetic, so `Excluded(i)` start overflows at
`usize::MAX` and `Excluded(0)` end underflows; both modelled as `none`):
```
let start = match value.start_bound() {
    Included(i) => *i,
    Excluded(i) => i + 1,
    Unbounded => 0,
};
let end = match value.end_bound() {
    Included(i) => Some(*i),
    Excluded(i) => Some(i - 1),
    Unbounded => None,
};
ByteRange::Range { start, end }
```
-/
def ByteRange.from_bounds (start_bound end_bound : Bound) : Option ByteRange :=
  match (match start_bound with
         | Bound.Included i => some i
         | Bound.Excluded i => usize_add i 1
         | Bound.Unbounded => some 0),
        (match end_bound with
         | Bound.Included i => some (some i)
         | Bound.Excluded i => Option.map some (usize_sub i 1)
         | Bound.Unbounded => some (none : Option Nat)) with
  | some s, some e => some (ByteRange.Range s e)
  | _, _ => none

/-- `std::io::SeekFrom`: `Start(u64)`, `End(i64)`, `Current(i64)`. -/
inductive SeekFrom where
  | Start (offset : Nat)
  | End (offset : Int)
  | Current (offset : Int)
deriving DecidableEq, Repr

/-- `std::num::TryFromIntError` (no payload). -/
inductive TryFromIntError where
  | mk
deriving DecidableEq, Repr

/-- `u64::try_from(n: usize)`: succeeds iff `n` fits in 64 unsigned bits. -/
def u64_try_from (n : Nat) : Except TryFromIntError Nat :=
  if n ≤ U64_MAX then Except.ok n else Except.error TryFromIntError.mk

/-- `i64::try_from(n: usize)`: succeeds iff `n ≤ i64::MAX`. -/
def i64_try_from (n : Nat) : Except TryFromIntError Int :=
  if n ≤ I64_MAX then Except.ok (Int.ofNat n) else Except.error TryFromIntError.mk

/-- `impl TryInto<SeekFrom> for &ByteRange`.

Source:
```
ByteRange::Range { start, end: _ } => SeekFrom::Start(u64::try_from(*start)?),
ByteRange::Suffix(o) => SeekFrom::End(-i64::try_from(*o)?),
```
-/
def ByteRange.try_into_seek_from (r : ByteRange) : Except TryFromIntError SeekFrom :=
  match r with
  | ByteRange.Range start _ =>
      match u64_try_from start with
      | Except.ok v => Except.ok (SeekFrom.Start v)
      | Except.error e => Except.error e
  | ByteRange.Suffix o =>
      match i64_try_from o with
      | Except.ok v => Except.ok (SeekFrom.End (-v))
      | Except.error e => Except.error e

end RangeSpec

namespace RangeSpec

/-- Claim C1: the claim says `expected_len` on `Range {start: 50, end: Some(149)}`
returns `Some(100)` for every `total_length`; the code instead computes
`149 - 50 = 99` (checked subtraction of the inclusive end offset, with no `+ 1`),
contradicting the field documentation that `end` is the 0-based inclusive offset
of the last byte (the bytes 50 through 149 inclusive number 100). -/
theorem c1_expected_len_range_50_149_is_99 :
    ∀ total_length : Option Nat,
      ByteRange.expected_len (ByteRange.Range 50 (some 149)) total_length = some 99 :=
  fun _ => rfl

/-- Claim C2: for `Range {start, end}`, `expected_len` returns `None` when both
`end` and `total_length` are absent; otherwise with `e = end` if present else
`total_length`, it returns `None` when `start > e` and `Some (e - start)` when
`start ≤ e`. -/
theorem c2_expected_len_explicit (start : Nat) (end_ total_length : Option Nat) :
    ByteRange.expected_len (ByteRange.Range start end_) total_length =
      match end_ with
      | some e => if start ≤ e then some (e - start) else none
      | none =>
          match total_length with
          | some tl => if start ≤ tl then some (tl - start) else none
          | none => none := by
  cases end_ <;> cases total_length <;> rfl

/-- Claim C3 counterexample: the conversion error is not the only failure mode
in the entire component — constructing a `ByteRange` from a bounded interval
with end bound `Excluded(0)` evaluates the unchecked `usize` expression `0 - 1`,
which underflows (a panic, modelled as `none`). -/
theorem c3_counterexample :
    ByteRange.from_bounds (Bound.Included 5) (Bound.Excluded 0) = none := rfl

/-- Claim C3 (amended): converting a `ByteRange` to a `SeekFrom` yields
`Start(start)` for the `Range` variant (for every value of the `end` field,
which is never encoded) and `End(-count)` for the `Suffix` variant, and it
returns the numeric-conversion error exactly when the offset does not fit the
target width (`start > u64::MAX`, resp. `count > i64::MAX`); this is the only
failure mode of the seek-conversion operation (though not of the whole
component, since interval construction can panic on arithmetic overflow). -/
theorem c3_seek_from_characterization :
    (∀ start : Nat, ∀ end_ : Option Nat,
        ByteRange.try_into_seek_from (ByteRange.Range start end_) =
          if start ≤ U64_MAX then Except.ok (SeekFrom.Start start)
          else Except.error TryFromIntError.mk) ∧
    (∀ count : Nat,
        ByteRange.try_into_seek_from (ByteRange.Suffix count) =
          if count ≤ I64_MAX then Except.ok (SeekFrom.End (-(Int.ofNat count)))
          else Except.error TryFromIntError.mk) := by
  constructor
  · intro start end_
    by_cases h : start ≤ U64_MAX <;>
      simp [ByteRange.try_into_seek_from, u64_try_from, h]
  · intro count
    by_cases h : count ≤ I64_MAX <;>
      simp [ByteRange.try_into_seek_from, i64_try_from, h]

/-- Claim C4: `expected_len` on `Suffix(count)` is always `Some(count)`,
whatever the optional `total_length`, with no clamping. -/
theorem c4_suffix_expected_len (count : Nat) (total_length : Option Nat) :
    ByteRange.expected_len (ByteRange.Suffix count) total_length = some count := rfl

/-- Claim C5 counterexample: construction from a bounded interval does not
succeed for every combination of bounds — an `Excluded(0)` end bound makes the
source compute the unchecked `usize` expression `0 - 1`, which underflows
(a panic in debug builds, a silent wrap in release builds; modelled as `none`),
so construction is not total and panic-free. -/
theorem c5_counterexample :
    ByteRange.from_bounds Bound.Unbounded (Bound.Excluded 0) = none := rfl

/-- Claim C5 (amended): `expected_len` and rendering are total functions, but
construction from a generic bounded interval succeeds exactly when the start
bound is not `Excluded(usize::MAX)` (whose `i + 1` would overflow) and the end
bound is not `Excluded(0)` (whose `i - 1` would underflow). -/
theorem c5_construction_success_characterization (start_bound end_bound : Bound) :
    (ByteRange.from_bounds start_bound end_bound).isSome = true ↔
      ((match start_bound with
        | Bound.Excluded i => i < USIZE_MAX
        | _ => True) ∧
       (match end_bound with
        | Bound.Excluded i => 1 ≤ i
        | _ => True)) := by
  cases start_bound with
  | Included i =>
      cases end_bound with
      | Included j => simp [ByteRange.from_bounds]
      | Excluded j =>
          by_cases h : 1 ≤ j <;>
            simp [ByteRange.from_bounds, usize_sub, h]
      | Unbounded => simp [ByteRange.from_bounds]
  | Excluded i =>
      by_cases h : i + 1 ≤ USIZE_MAX <;>
      cases end_bound with
      | Included j =>
          simp [ByteRange.from_bounds, usize_add, h]
          omega
      | Excluded j =>
          by_cases h2 : 1 ≤ j <;>
            simp [ByteRange.from_bounds, usize_add, usize_sub, h, h2] <;>
            omega
      | Unbounded =>
          simp [ByteRange.from_bounds, usize_add, h]
          omega
  | Unbounded =>
      cases end_bound with
      | Included j => simp [ByteRange.from_bounds]
      | Excluded j =>
          by_cases h : 1 ≤ j <;>
            simp [ByteRange.from_bounds, usize_sub, h]
      | Unbounded => simp [ByteRange.from_bounds]

/-- Claim C6 counterexample: conversion from a bounded interval does not always
produce an `Explicit` (`Range`) value — at end bound `Excluded(0)` the source's
unchecked `i - 1` underflows (panic, modelled as `none`), so no value with
`end = Some(i - 1)` is produced. -/
theorem c6_counterexample :
    ByteRange.from_bounds (Bound.Included 0) (Bound.Excluded 0) = none := rfl

/-- Claim C6 (amended): for every bounded interval whose start bound is not
`Excluded(usize::MAX)` and whose end bound is not `Excluded(0)`, conversion
produces a `Range` (never a `Suffix`) with start `i` for `Included(i)`, `i + 1`
for `Excluded(i)`, `0` for an unbounded start, and end `Some(i)` for
`Included(i)`, `Some(i - 1)` for `Excluded(i)`, `None` for an unbounded end. -/
theorem c6_from_bounds_formula (start_bound end_bound : Bound)
    (hs : match start_bound with
          | Bound.Excluded i => i < USIZE_MAX
          | _ => True)
    (he : match end_bound with
          | Bound.Excluded i => 1 ≤ i
          | _ => True) :
    ByteRange.from_bounds start_bound end_bound =
      some (ByteRange.Range
        (match start_bound with
         | Bound.Included i => i
         | Bound.Excluded i => i + 1
         | Bound.Unbounded => 0)
        (match end_bound with
         | Bound.Included i => some i
         | Bound.Excluded i => some (i - 1)
         | Bound.Unbounded => none)) := by
  cases start_bound with
  | Included i =>
      cases end_bound with
      | Included j => rfl
      | Excluded j =>
          have he' : 1 ≤ j := he
          simp [ByteRange.from_bounds, usize_sub, he']
      | Unbounded => rfl
  | Excluded i =>
      have hs' : i + 1 ≤ USIZE_MAX := hs
      cases end_bound with
      | Included j => simp [ByteRange.from_bounds, usize_add, hs']
      | Excluded j =>
          have he' : 1 ≤ j := he
          simp [ByteRange.from_bounds, usize_add, usize_sub, hs', he']
      | Unbounded => simp [ByteRange.from_bounds, usize_add, hs']
  | Unbounded =>
      cases end_bound with
      | Included j => rfl
      | Excluded j =>
          have he' : 1 ≤ j := he
          simp [ByteRange.from_bounds, usize_sub, he']
      | Unbounded => rfl

/-- Claim C6 witness: the amended conversion formula at the concrete interval
with start bound `Excluded(3)` and end bound `Excluded(8)`. -/
theorem c6_from_bounds_formula_witness :
    ByteRange.from_bounds (Bound.Excluded 3) (Bound.Excluded 8) =
      some (ByteRange.Range 4 (some 7)) :=
  c6_from_bounds_formula (Bound.Excluded 3) (Bound.Excluded 8) (by decide) (by decide)

/-- Claim C7: rendering produces exactly `"bytes=<start>-<e>"` for
`Range {start, end: Some(e)}`, `"bytes=<start>-"` for `Range {start, end: None}`,
and `"bytes=-<count>"` for `Suffix(count)`, with the fixed unit constant
`BYTES = "bytes"`. -/
theorem c7_display_format :
    BYTES = "bytes" ∧
    (∀ start e : Nat,
        ByteRange.display (ByteRange.Range start (some e)) =
          "bytes=" ++ toString start ++ "-" ++ toString e) ∧
    (∀ start : Nat,
        ByteRange.display (ByteRange.Range start none) =
          "bytes=" ++ toString start ++ "-") ∧
    (∀ count : Nat,
        ByteRange.display (ByteRange.Suffix count) =
          "bytes=-" ++ toString count) := by
  refine ⟨rfl, ?_, ?_, ?_⟩
  · intro start e
    show ("bytes" ++ "=") ++ ((toString start ++ "-") ++ toString e) = _
    rw [← String.append_assoc, ← String.append_assoc]
    rfl
  · intro start
    show ("bytes" ++ "=") ++ (toString start ++ "-" ++ "") = _
    rw [String.append_empty, ← String.append_assoc]
    rfl
  · intro count
    show ("bytes" ++ "=") ++ ("-" ++ toString count) = _
    rw [← String.append_assoc]
    rfl

/-- Claim C8: for all `a ≤ b`, converting the half-open interval `a..b+1`
(and likewise the inclusive interval `a..=b`) yields `Range {start: a,
end: Some(b)}`, and rendering that value gives `"bytes=a-b"`. -/
theorem c8_inclusive_interval_roundtrip (a b : Nat) (h : a ≤ b) :
    ByteRange.from_bounds (Bound.Included a) (Bound.Excluded (b + 1)) =
        some (ByteRange.Range a (some b)) ∧
    ByteRange.from_bounds (Bound.Included a) (Bound.Included b) =
        some (ByteRange.Range a (some b)) ∧
    ByteRange.display (ByteRange.Range a (some b)) =
        "bytes=" ++ toString a ++ "-" ++ toString b := by
  refine ⟨?_, rfl, ?_⟩
  · simp [ByteRange.from_bounds, usize_sub]
  · show ("bytes" ++ "=") ++ ((toString a ++ "-") ++ toString b) = _
    rw [← String.append_assoc, ← String.append_assoc]
    rfl

/-- Claim C8 witness: the round trip at the concrete values `a = 3`, `b = 7`. -/
theorem c8_inclusive_interval_roundtrip_witness :
    ByteRange.from_bounds (Bound.Included 3) (Bound.Excluded 8) =
        some (ByteRange.Range 3 (some 7)) ∧
    ByteRange.from_bounds (Bound.Included 3) (Bound.Included 7) =
        some (ByteRange.Range 3 (some 7)) ∧
    ByteRange.display (ByteRange.Range 3 (some 7)) = "bytes=3-7" :=
  c8_inclusive_interval_roundtrip 3 7 (by decide)

/-- Claim C9: for every valid `usize` start the `Range` variant converts to a
seek instruction without error (a word-sized unsigned offset always fits the
unsigned 64-bit width), so the numeric-conversion error occurs only for the
`Suffix` variant, exactly when `count` exceeds `i64::MAX`. -/
theorem c9_seek_failure_only_for_suffix :
    (∀ start : Nat, ∀ end_ : Option Nat, start ≤ USIZE_MAX →
        ByteRange.try_into_seek_from (ByteRange.Range start end_) =
          Except.ok (SeekFrom.Start start)) ∧
    (∀ count : Nat, count ≤ USIZE_MAX →
        (ByteRange.try_into_seek_from (ByteRange.Suffix count) =
            Except.error TryFromIntError.mk ↔ I64_MAX < count)) := by
  constructor
  · intro start end_ h
    have h2 : start ≤ U64_MAX := h
    simp [ByteRange.try_into_seek_from, u64_try_from, h2]
  · intro count _
    by_cases h : count ≤ I64_MAX <;>
      simp [ByteRange.try_into_seek_from, i64_try_from, h] <;>
      omega

/-- Claim C9 witness: a concrete `Range` start converts without error, and the
concrete count `2^63` (which exceeds `i64::MAX`) hits the conversion error. -/
theorem c9_seek_failure_only_for_suffix_witness :
    ByteRange.try_into_seek_from (ByteRange.Range 10 (some 99)) =
        Except.ok (SeekFrom.Start 10) ∧
    (ByteRange.try_into_seek_from (ByteRange.Suffix (2 ^ 63)) =
        Except.error TryFromIntError.mk ↔ I64_MAX < 2 ^ 63) :=
  ⟨c9_seek_failure_only_for_suffix.1 10 (some 99) (by decide),
   c9_seek_failure_only_for_suffix.2 (2 ^ 63) (by decide)⟩

/-- Claim C10: for every start offset `s` and every optional `total_length`,
`expected_len` on `Range {start: s, end: Some(s)}` is `Some(0)` — the
single-byte inclusive range whose start equals its end is reported as
yielding zero bytes. -/
theorem c10_degenerate_single_byte (s : Nat) (total_length : Option Nat) :
    ByteRange.expected_len (ByteRange.Range s (some s)) total_length = some 0 := by
  show checked_sub s s = some 0
  simp [checked_sub]

end RangeSpec
